import Mathlib

/-!
Verification of the multi-ui CLI scaffolding tool.

The repository ships two variants of the same command line script in one
source file.  Variant A (the first script) stores only the language
preference and hardcodes the component directory; variant B (the second
script) additionally stores a configurable `componentPath`, classifies
HTTP 404 separately, and runs a dependency installation step before
`setup`.  Both variants are embedded below as pure state passing
functions over an explicit file system model.  External collaborators
(the Babel transform, the network, the interactive prompt) are
parameters of the embedding.
-/

/-! ## Character level utilities shared by the embedding -/

/-- Lower hex digit character for a value below 16, as emitted by
`JSON.stringify` in `\u00xx` escapes. -/
def hexDigitChar (n : Nat) : Char :=
  if n < 10 then Char.ofNat (48 + n) else Char.ofNat (87 + n)

/-- Value of one hex digit character, as accepted by `JSON.parse`. -/
def parseHexDigit (c : Char) : Option Nat :=
  if '0' ≤ c ∧ c ≤ '9' then some (c.toNat - 48)
  else if 'a' ≤ c ∧ c ≤ 'f' then some (c.toNat - 87)
  else if 'A' ≤ c ∧ c ≤ 'F' then some (c.toNat - 55)
  else none

/-- Model of the JavaScript builtin `String.prototype.split` restricted
to a one character separator, at the character list level. -/
def splitOnCharList (sep : Char) : List Char → List (List Char)
  | [] => [[]]
  | c :: cs =>
    if c = sep then [] :: splitOnCharList sep cs
    else
      match splitOnCharList sep cs with
      | [] => [[c]]
      | h :: t => (c :: h) :: t

/-- Model of the JavaScript builtin `String.prototype.toLowerCase`.
The component identifiers this tool handles are plain ASCII, where the
builtin agrees with a character wise ASCII lowering. -/
def jsToLowerCase (s : String) : String :=
  String.mk (s.data.map Char.toLower)

/-- Model of the JavaScript builtin `String.prototype.replace` with a
plain string pattern: only the first occurrence is replaced. -/
def replaceFirstList (pat rep : List Char) : List Char → List Char
  | [] => []
  | c :: rest =>
    if pat.isPrefixOf (c :: rest) then rep ++ (c :: rest).drop pat.length
    else c :: replaceFirstList pat rep rest

/-! ## JSON serialization, as produced by `JSON.stringify(_, null, 2)`
and consumed by `JSON.parse`, for the configuration objects this tool
reads and writes. -/

/-- Escape of one character inside a JSON string literal, following
`JSON.stringify`: quote and backslash get a backslash escape, the named
control characters get their short escapes, the remaining control
characters get a `\u00xx` escape, and everything else is copied. -/
def jsonEscapeChar (c : Char) : List Char :=
  if c = '"' then ['\\', '"']
  else if c = '\\' then ['\\', '\\']
  else if c = '\x08' then ['\\', 'b']
  else if c = '\t' then ['\\', 't']
  else if c = '\n' then ['\\', 'n']
  else if c = '\x0c' then ['\\', 'f']
  else if c = '\r' then ['\\', 'r']
  else if c.toNat < 32 then
    ['\\', 'u', '0', '0', hexDigitChar (c.toNat / 16), hexDigitChar (c.toNat % 16)]
  else [c]

/-- Escape of a whole character sequence inside a JSON string literal. -/
def jsonEscapeList : List Char → List Char
  | [] => []
  | c :: cs => jsonEscapeChar c ++ jsonEscapeList cs

/-- String level wrapper of `jsonEscapeList`. -/
def jsonEscapeString (s : String) : String :=
  String.mk (jsonEscapeList s.data)

/-- Parser for the body of a JSON string literal, following
`JSON.parse`: consumes characters up to and including the closing
quote and returns the decoded content together with the rest of the
input.  Raw control characters and unknown escapes are rejected, as
`JSON.parse` rejects them. -/
def parseJsonStringBody : List Char → Option (List Char × List Char)
  | [] => none
  | c :: rest =>
    if c = '"' then some ([], rest)
    else if c = '\\' then
      match rest with
      | [] => none
      | e :: rest2 =>
        if e = '"' then (parseJsonStringBody rest2).map (fun p => ('"' :: p.1, p.2))
        else if e = '\\' then (parseJsonStringBody rest2).map (fun p => ('\\' :: p.1, p.2))
        else if e = '/' then (parseJsonStringBody rest2).map (fun p => ('/' :: p.1, p.2))
        else if e = 'b' then (parseJsonStringBody rest2).map (fun p => ('\x08' :: p.1, p.2))
        else if e = 'f' then (parseJsonStringBody rest2).map (fun p => ('\x0c' :: p.1, p.2))
        else if e = 'n' then (parseJsonStringBody rest2).map (fun p => ('\n' :: p.1, p.2))
        else if e = 'r' then (parseJsonStringBody rest2).map (fun p => ('\r' :: p.1, p.2))
        else if e = 't' then (parseJsonStringBody rest2).map (fun p => ('\t' :: p.1, p.2))
        else if e = 'u' then
          match rest2 with
          | a :: b :: h :: l :: rest3 =>
            match parseHexDigit a, parseHexDigit b, parseHexDigit h, parseHexDigit l with
            | some da, some db, some dh, some dl =>
              (parseJsonStringBody rest3).map
                (fun p => (Char.ofNat (da * 4096 + db * 256 + dh * 16 + dl) :: p.1, p.2))
            | _, _, _, _ => none
          | _ => none
        else none
    else if c.toNat < 32 then none
    else (parseJsonStringBody rest).map (fun p => (c :: p.1, p.2))

/-- Literal consumption: succeeds when the input starts with the given
literal and returns the rest of the input. -/
def takeLit (lit s : List Char) : Option (List Char) :=
  if lit.isPrefixOf s then some (s.drop lit.length) else none

/-! ## Node path module model (posix flavor) -/

/-- Segment resolution of `path.posix.normalize`: empty and dot
segments are dropped, a dot dot segment pops the previous real segment,
and above the start either collects (relative paths) or vanishes
(absolute paths).  The accumulator holds resolved segments reversed. -/
def normSegs (allowAboveRoot : Bool) : List String → List String → List String
  | [], acc => acc.reverse
  | seg :: rest, acc =>
    if seg = "" ∨ seg = "." then normSegs allowAboveRoot rest acc
    else if seg = ".." then
      match acc with
      | [] => normSegs allowAboveRoot rest (if allowAboveRoot then [".."] else [])
      | top :: accRest =>
        if top = ".." then normSegs allowAboveRoot rest (".." :: top :: accRest)
        else normSegs allowAboveRoot rest accRest
    else normSegs allowAboveRoot rest (seg :: acc)

/-- Model of `path.posix.normalize`. -/
def pathNormalize (p : String) : String :=
  if p.data = [] then "."
  else
    let isAbs := p.data.headD ' ' = '/'
    let trail := p.data.getLast? = some '/'
    let segs := normSegs (!isAbs) ((splitOnCharList '/' p.data).map String.mk) []
    let body := String.intercalate "/" segs
    if body = "" then
      if isAbs then "/" else if trail then "./" else "."
    else
      let body2 := if trail then body ++ "/" else body
      if isAbs then "/" ++ body2 else body2

/-- Model of `path.posix.join`: the non empty parts are joined with a
slash and the result is normalized; with nothing to join the result is
the current directory. -/
def pathJoin (parts : List String) : String :=
  let nonEmpty := parts.filter (fun s => s ≠ "")
  if nonEmpty = [] then "." else pathNormalize (String.intercalate "/" nonEmpty)

/-- Model of `path.extname` for the plain file names this tool meets:
the final dot suffix, empty for dotless names and for a leading dot
only. -/
def extname (file : String) : String :=
  match splitOnCharList '.' file.data with
  | [] => ""
  | [_] => ""
  | parts =>
    if file.data.headD ' ' = '.' ∧ parts.length = 2 then ""
    else String.mk ('.' :: parts.getLastD [])

/-- Proper ancestor directories of a path, outermost first, used to
model recursive directory creation. -/
def dirAncestors (p : String) : List String :=
  let segs := ((splitOnCharList '/' p.data).map String.mk).filter (fun s => s ≠ "")
  let isAbs := p.data.headD ' ' = '/'
  (List.range (segs.length - 1)).map (fun i =>
    let pre := String.intercalate "/" (segs.take (i + 1))
    if isAbs then "/" ++ pre else pre)

/-! ## File system and console model -/

/-- File system state: written files as a path keyed association list
(later writes shadow earlier ones) and the set of existing
directories. -/
structure FS where
  files : List (String × String)
  dirs : List String
deriving DecidableEq

/-- Model of `fs.writeFileSync`: unconditional overwrite. -/
def FS.writeFile (fs : FS) (path content : String) : FS :=
  { fs with files := (path, content) :: fs.files }

/-- Model of `fs-extra` `ensureDirSync` and of `fs.mkdirSync` with the
recursive option: the directory and all its ancestors exist
afterwards. -/
def FS.ensureDir (fs : FS) (p : String) : FS :=
  { fs with dirs := p :: dirAncestors p ++ fs.dirs }

/-- Model of `fs.readdirSync`: the names of the files lying directly in
the directory; a missing directory is an error, as in Node. -/
def FS.readdir (fs : FS) (dir : String) : Except String (List String) :=
  if fs.dirs.contains dir then
    .ok (fs.files.filterMap (fun e =>
      let pre := (dir ++ "/").data
      if pre.isPrefixOf e.1.data then
        let rest := e.1.data.drop pre.length
        if rest.contains '/' then none else some (String.mk rest)
      else none))
  else .error ("ENOENT: no such file or directory, scandir \x27" ++ dir ++ "\x27")

/-- Console and process level observations of one CLI run. -/
inductive Event
  | out (s : String)
  | warn (s : String)
  | err (s : String)
  | installAttempt
deriving DecidableEq

/-- A value thrown in JavaScript: either an `Error` object or a plain
string.  Reading `.message` on a plain string yields `undefined`, which
the console renders as the text `undefined`. -/
inductive JsThrown
  | errorObj (message : String)
  | stringVal (s : String)
deriving DecidableEq

/-- Text the console prints for the `.message` field of a thrown value. -/
def JsThrown.messageText : JsThrown → String
  | .errorObj m => m
  | .stringVal _ => "undefined"

/-- Result of one top level operation: the file system afterwards, the
console events in order, and a value that escaped the operation
uncaught, when any. -/
structure RunResult where
  fs : FS
  events : List Event
  uncaught : Option JsThrown
deriving DecidableEq

/-! ## Network model -/

/-- Raw behavior of the remote host for one URL. -/
inductive AxiosResult
  | response (status : Nat) (statusText : String) (body : String)
  | transportError (msg : String)
deriving DecidableEq

/-- Outcome of `axios.get` as the calling code observes it: axios
resolves with the response for 2xx statuses, rejects with an error
carrying the response for other statuses, and rejects with a plain
error on transport failure. -/
inductive AxiosOutcome
  | resolved (status : Nat) (statusText : String) (body : String)
  | httpError (status : Nat) (statusText : String)
  | netError (msg : String)
deriving DecidableEq

/-- Dispatch of one `axios.get` call against the modelled network. -/
def axiosGet (net : String → AxiosResult) (url : String) : AxiosOutcome :=
  match net url with
  | .response st stx b => if 200 ≤ st ∧ st < 300 then .resolved st stx b else .httpError st stx
  | .transportError m => .netError m

/-- Message of the axios rejection for a non 2xx HTTP status. -/
def axiosStatusMessage (status : Nat) : String :=
  "Request failed with status code " ++ toString status

/-! ## Shared configuration constants of both script variants -/

/-- GitHub repository both variants download from. -/
def GITHUB_REPO : String := "om0852/multi-ui"

/-- Declared components path constant; variant A interpolates it into
the fetch URL, variant B declares it but hardcodes `app` instead. -/
def COMPONENTS_PATH : String := "src/app"

/-- Default component folder of variant B. -/
def DEFAULT_COMPONENT_PATH : String := "src/app/"

/-- Path of the persisted preference file, relative to the process
working directory; both variants use the same file name. -/
def configFile (cwd : String) : String :=
  pathJoin [cwd, "multi-ui.config.json"]

/-- Base name derivation shared by both fetchers: the portion of the
lowercased identifier before the first underscore, via the JavaScript
split builtin. -/
def baseName (componentName : String) : String :=
  String.mk ((splitOnCharList '_' (jsToLowerCase componentName).data).headD [])

/-- Engine rendering of a `JSON.parse` syntax error; the exact text is
environment specific and nothing below depends on it. -/
def jsonSyntaxErrorMsg : String := "Unexpected token in JSON"

/-! ## Preference serialization

Variant B persists `JSON.stringify({language, componentPath}, null, 2)`
and variant A persists `JSON.stringify({language}, null, 2)`.  The
parsers below model `JSON.parse` restricted to the exact grammar the
respective writer emits; a file that does not fit is modelled as a
parse error. -/

/-- Persisted preference of variant B. -/
structure Preference where
  language : String
  componentPath : String
deriving DecidableEq

/-- Opening literal of the two field configuration document. -/
def langKeyLit : List Char := "\x7b\n  \"language\": \"".data

/-- Literal between the two string fields, after the closing quote of
the language value. -/
def midKeyLit : List Char := ",\n  \"componentPath\": \"".data

/-- Closing literal after the component path value. -/
def endLit : List Char := "\n\x7d".data

/-- Closing literal of the one field document of variant A. -/
def endLitA : List Char := "\n\x7d".data

/-- Serialization of the variant B configuration object, exactly as
`JSON.stringify(config, null, 2)` lays it out. -/
def jsonStringifyPref (p : Preference) : String :=
  "\x7b\n  \"language\": \"" ++ jsonEscapeString p.language ++
    "\",\n  \"componentPath\": \"" ++ jsonEscapeString p.componentPath ++ "\"\n\x7d"

/-- Parser for the variant B configuration document. -/
def parsePrefChars (s : List Char) : Option Preference :=
  (takeLit langKeyLit s).bind fun r1 =>
  (parseJsonStringBody r1).bind fun p1 =>
  (takeLit midKeyLit p1.2).bind fun r3 =>
  (parseJsonStringBody r3).bind fun p2 =>
  if p2.2 = endLit then some ⟨String.mk p1.1, String.mk p2.1⟩ else none

/-- String level wrapper of `parsePrefChars`. -/
def jsonParsePref (s : String) : Option Preference :=
  parsePrefChars s.data

/-- Serialization of the variant A preference object. -/
def jsonStringifyLangA (language : String) : String :=
  "\x7b\n  \"language\": \"" ++ jsonEscapeString language ++ "\"\n\x7d"

/-- Parser for the variant A preference document, returning the
language field. -/
def jsonParseLangA (s : String) : Option String :=
  (takeLit langKeyLit s.data).bind fun r1 =>
  (parseJsonStringBody r1).bind fun p1 =>
  if p1.2 = endLitA then some (String.mk p1.1) else none

/-! ## Variant B: the configurable script -/

/-- URL variant B builds for a component: note the hardcoded `app`
repository folder, not the declared `COMPONENTS_PATH` constant. -/
def fetchUrl_B (componentName : String) : String :=
  "https://raw.githubusercontent.com/" ++ GITHUB_REPO ++ "/main/app/" ++
    baseName componentName ++ "/_components/" ++ componentName ++ ".tsx"

/-- Variant B fetcher: a 200 response yields the body verbatim; a 404
rejection becomes the component not found error naming the component
and the attempted URL; any other rejection, and the dead branch for a
non 200 status inside the 2xx range, become the generic wrapped fetch
error. -/
def fetchComponentFromGitHub_B (net : String → AxiosResult) (componentName : String) :
    Except String String :=
  let url := fetchUrl_B componentName
  match axiosGet net url with
  | .resolved st stx b =>
    if st = 200 then .ok b
    else .error ("Error fetching component: Failed to fetch component: " ++ stx)
  | .httpError st _ =>
    if st = 404 then
      .error ("Component \x27" ++ componentName ++ "\x27 not found at path: " ++ url ++
        "\nPlease check the component name and path.")
    else .error ("Error fetching component: " ++ axiosStatusMessage st)
  | .netError m => .error ("Error fetching component: " ++ m)

/-- Variant B transformer: a direct call into Babel with the virtual
file name; the Babel pipeline itself is a parameter of the embedding. -/
def convertTsxToJsx_B (babel : String → String → Except String String)
    (tsxCode fileName : String) : Except String String :=
  babel tsxCode fileName

/-- Variant B setup: lowercases the prompted language, appends
`multi-ui/components` to the prompted directory, and persists both
fields to the configuration file. -/
def setupProject_B (cwd promptLanguage promptDirectory : String) (fs : FS) :
    FS × List Event :=
  let resolvedPath := pathJoin [promptDirectory, "multi-ui", "components"]
  let config : Preference := ⟨jsToLowerCase promptLanguage, resolvedPath⟩
  (fs.writeFile (configFile cwd) (jsonStringifyPref config),
   [.out ("Setup complete! Language: " ++ promptLanguage ++ ", Components Path: " ++ resolvedPath)])

/-- Variant B preference read: parses the configuration file when it
exists, otherwise warns and substitutes the hardcoded default without
touching the file system; the returned state component is the input
state, the source performs no write here. -/
def getPreference_B (cwd : String) (fs : FS) :
    Except String Preference × List Event × FS :=
  match fs.files.lookup (configFile cwd) with
  | some content =>
    match jsonParsePref content with
    | some config => (.ok config, [], fs)
    | none => (.error jsonSyntaxErrorMsg, [], fs)
  | none =>
    (.ok ⟨"typescript", DEFAULT_COMPONENT_PATH ++ "multi-ui/components"⟩,
     [.warn "No preference found. Defaulting to TypeScript and default folder structure."], fs)

/-- Variant B component creation: reads the preference (outside the try
block, so a parse failure escapes), ensures the component directory,
fetches, optionally transforms, and writes the single output file; any
failure inside the try block is caught and reported. -/
def createComponent_B (babel : String → String → Except String String)
    (net : String → AxiosResult) (cwd componentName : String) (fs : FS) : RunResult :=
  match getPreference_B cwd fs with
  | (.error e, evs, fs0) => ⟨fs0, evs, some (.errorObj e)⟩
  | (.ok config, evs, fs0) =>
    let extension := if config.language = "javascript" then "jsx" else "tsx"
    let componentDir := pathJoin [cwd, config.componentPath]
    let fs1 := fs0.ensureDir componentDir
    let componentFile := pathJoin [componentDir, componentName ++ "." ++ extension]
    let evs1 := evs ++ [.out ("Fetching " ++ componentName ++ " from GitHub...")]
    match fetchComponentFromGitHub_B net componentName with
    | .error msg => ⟨fs1, evs1 ++ [.err ("Error creating component: " ++ msg)], none⟩
    | .ok code =>
      if config.language = "javascript" then
        match convertTsxToJsx_B babel code (componentName ++ ".tsx") with
        | .error msg => ⟨fs1, evs1 ++ [.err ("Error creating component: " ++ msg)], none⟩
        | .ok jsxCode =>
          ⟨fs1.writeFile componentFile jsxCode,
           evs1 ++ [.out ("Component created at: " ++ componentFile)], none⟩
      else
        ⟨fs1.writeFile componentFile code,
         evs1 ++ [.out ("Component created at: " ++ componentFile)], none⟩

/-- Usage text variant B prints for an unknown or missing action. -/
def usage_B : String :=
  "\nUsage:\n  npx multi-ui setup          - Set up the project (choose language and path)\n  npx multi-ui add <ComponentName> - Create a new component\n      "

/-- Truthiness of the optional second CLI argument, as JavaScript
evaluates it: absent and empty strings are falsy. -/
def jsTruthy : Option String → Bool
  | none => false
  | some s => !(s == "")

/-- Variant B command dispatch.  The `setup` action first awaits the
Babel preset installation, whose rejection value is a plain string and
escapes the switch; an escaped value is caught by the top level catch,
which prints the `.message` field of the value. -/
def main_B (babel : String → String → Except String String)
    (net : String → AxiosResult) (cwd : String) (argv : List String)
    (installResult : Except String Unit) (promptLanguage promptDirectory : String)
    (fs : FS) : FS × List Event :=
  let action := argv.get? 0
  let componentName := argv.get? 1
  let run : RunResult :=
    if action = some "setup" then
      match installResult with
      | .error e => ⟨fs, [.installAttempt], some (.stringVal e)⟩
      | .ok _ =>
        let r := setupProject_B cwd promptLanguage promptDirectory fs
        ⟨r.1, .installAttempt :: r.2, none⟩
    else if action = some "add" then
      if jsTruthy componentName then
        createComponent_B babel net cwd (componentName.getD "") fs
      else
        ⟨fs, [.err "Please provide a component name. Usage: npx multi-ui add <ComponentName>"], none⟩
    else
      ⟨fs, [.out usage_B], none⟩
  match run.uncaught with
  | none => (run.fs, run.events)
  | some e => (run.fs, run.events ++ [.err ("Unexpected error: " ++ e.messageText)])

/-! ## Variant A: the fixed path script -/

/-- URL variant A builds for a component, interpolating the declared
`COMPONENTS_PATH` constant. -/
def fetchUrl_A (componentName : String) : String :=
  "https://raw.githubusercontent.com/" ++ GITHUB_REPO ++ "/main/" ++ COMPONENTS_PATH ++ "/" ++
    baseName componentName ++ "/_components/" ++ componentName ++ ".tsx"

/-- Variant A fetcher: a 200 response yields the body; any failure is
logged inside the fetcher and rethrown without 404 classification.  The
console rendering of the rethrown error object is modelled by its
message. -/
def fetchComponentFromGitHub_A (net : String → AxiosResult) (componentName : String) :
    Except String String × List Event :=
  match axiosGet net (fetchUrl_A componentName) with
  | .resolved st _ b =>
    if st = 200 then (.ok b, [])
    else
      let m := "Failed to fetch component from GitHub: " ++ toString st
      (.error m, [.err ("Error fetching component from GitHub: " ++ m)])
  | .httpError st _ =>
    let m := axiosStatusMessage st
    (.error m, [.err ("Error fetching component from GitHub: " ++ m)])
  | .netError m => (.error m, [.err ("Error fetching component from GitHub: " ++ m)])

/-- Variant A setup: persists only the lowercased language. -/
def setupProject_A (cwd promptLanguage : String) (fs : FS) : FS × List Event :=
  (fs.writeFile (configFile cwd) (jsonStringifyLangA (jsToLowerCase promptLanguage)),
   [.out ("Project setup complete! Language preference saved: " ++ promptLanguage)])

/-- Variant A preference read: returns the stored language, or warns
and defaults to typescript. -/
def getPreference_A (cwd : String) (fs : FS) : Except String String × List Event :=
  match fs.files.lookup (configFile cwd) with
  | some content =>
    match jsonParseLangA content with
    | some lang => (.ok lang, [])
    | none => (.error jsonSyntaxErrorMsg, [])
  | none => (.ok "typescript", [.warn "No preference found. Defaulting to TypeScript."])

/-- One pass of the variant A converter over the listed directory
entries: each `.tsx` file is read, transformed and written to the
output directory, which `outputFileSync` creates on demand; a read or
transform failure is thrown, keeping the files already written. -/
def convertFiles (babel : String → String → Except String String)
    (inputDir outputDir : String) :
    List String → FS → List Event → FS × List Event × Option String
  | [], fs, evs => (fs, evs, none)
  | file :: rest, fs, evs =>
    if extname file = ".tsx" then
      let filePath := pathJoin [inputDir, file]
      let outputFilePath :=
        pathJoin [outputDir, String.mk (replaceFirstList ".tsx".data ".jsx".data file.data)]
      match fs.files.lookup filePath with
      | none =>
        (fs, evs, some ("ENOENT: no such file or directory, open \x27" ++ filePath ++ "\x27"))
      | some code =>
        match babel code file with
        | .error e => (fs, evs, some e)
        | .ok transformed =>
          convertFiles babel inputDir outputDir rest
            ((fs.ensureDir outputDir).writeFile outputFilePath transformed)
            (evs ++ [.out ("Converted: " ++ file ++ " -> " ++ outputFilePath)])
    else convertFiles babel inputDir outputDir rest fs evs

/-- Variant A converter: lists the input directory and converts every
`.tsx` entry; a missing input directory is a thrown error. -/
def convertTsxToJsx_A (babel : String → String → Except String String)
    (inputDir outputDir : String) (fs : FS) : FS × List Event × Option String :=
  match fs.readdir inputDir with
  | .error e => (fs, [], some e)
  | .ok files => convertFiles babel inputDir outputDir files fs []

/-- Variant A component creation: everything, the preference read
included, sits inside one try block whose catch prints the error; the
fetched code is only written in the typescript branch, while the
javascript branch converts from a never populated input directory. -/
def createComponent_A (babel : String → String → Except String String)
    (net : String → AxiosResult) (cwd componentName : String) (fs : FS) : RunResult :=
  match getPreference_A cwd fs with
  | (.error e, evs) => ⟨fs, evs ++ [.err ("Error creating component: " ++ e)], none⟩
  | (.ok language, evs) =>
    let extension := if language = "javascript" then "jsx" else "tsx"
    let componentPath := pathJoin [cwd, "multi-ui", "components"]
    let componentFile := componentPath ++ "/" ++ componentName ++ "." ++ extension
    let fs1 := if fs.dirs.contains componentPath then fs else fs.ensureDir componentPath
    let evs1 := evs ++ [.out ("Fetching " ++ componentName ++ " from GitHub...")]
    match fetchComponentFromGitHub_A net componentName with
    | (.error msg, fevs) =>
      ⟨fs1, evs1 ++ fevs ++ [.err ("Error creating component: " ++ msg)], none⟩
    | (.ok code, fevs) =>
      if language = "javascript" then
        let inputDir := pathJoin [cwd, "multi-ui", "components", componentName]
        let outputDir := pathJoin [cwd, "multi-ui", "components", "converted"]
        let evs2 := evs1 ++ fevs ++ [.out ("Converting " ++ componentName ++ " to JavaScript...")]
        match convertTsxToJsx_A babel inputDir outputDir fs1 with
        | (fs2, cevs, some e) =>
          ⟨fs2, evs2 ++ cevs ++ [.err ("Error creating component: " ++ e)], none⟩
        | (fs2, cevs, none) => ⟨fs2, evs2 ++ cevs, none⟩
      else
        ⟨fs1.writeFile componentFile code,
         evs1 ++ fevs ++ [.out (componentName ++ " created at " ++ componentFile)], none⟩

/-- Usage text variant A prints for an unknown invocation. -/
def usage_A : String :=
  "Usage:\n  npx multi-ui setup         - Set up the project\n  npx multi-ui add <ComponentName> - Create a new component"

/-- Variant A command dispatch: no installation step exists in this
variant, and every operation catches its own errors. -/
def main_A (babel : String → String → Except String String)
    (net : String → AxiosResult) (cwd : String) (argv : List String)
    (promptLanguage : String) (fs : FS) : FS × List Event :=
  let action := argv.get? 0
  let componentName := argv.get? 1
  if action = some "setup" then
    setupProject_A cwd promptLanguage fs
  else if action = some "add" ∧ jsTruthy componentName then
    let r := createComponent_A babel net cwd (componentName.getD "") fs
    (r.fs, r.events)
  else
    (fs, [.out usage_A])

/-! ## Round trip of the persisted configuration -/

theorem parseHex_hexDigit : ∀ n, n < 16 → parseHexDigit (hexDigitChar n) = some n := by decide

theorem parse_escape (s : List Char) : ∀ rest : List Char,
    parseJsonStringBody (jsonEscapeList s ++ '"' :: rest) = some (s, rest) := by
  induction s with
  | nil => intro rest; rw [jsonEscapeList, List.nil_append, parseJsonStringBody.eq_def]; simp
  | cons c cs ih =>
    intro rest
    simp only [jsonEscapeList, List.append_assoc]
    simp only [jsonEscapeChar]
    split_ifs with h1 h2 h3 h4 h5 h6 h7 h8
    · subst h1; rw [List.cons_append, List.cons_append, List.nil_append,
        parseJsonStringBody.eq_def]; simp [ih]
    · subst h2; rw [List.cons_append, List.cons_append, List.nil_append,
        parseJsonStringBody.eq_def]; simp [ih]
    · subst h3; rw [List.cons_append, List.cons_append, List.nil_append,
        parseJsonStringBody.eq_def]; simp [ih]
    · subst h4; rw [List.cons_append, List.cons_append, List.nil_append,
        parseJsonStringBody.eq_def]; simp [ih]
    · subst h5; rw [List.cons_append, List.cons_append, List.nil_append,
        parseJsonStringBody.eq_def]; simp [ih]
    · subst h6; rw [List.cons_append, List.cons_append, List.nil_append,
        parseJsonStringBody.eq_def]; simp [ih]
    · subst h7; rw [List.cons_append, List.cons_append, List.nil_append,
        parseJsonStringBody.eq_def]; simp [ih]
    · have hd1 : parseHexDigit (hexDigitChar (c.toNat / 16)) = some (c.toNat / 16) :=
        parseHex_hexDigit _ (by omega)
      have hd2 : parseHexDigit (hexDigitChar (c.toNat % 16)) = some (c.toNat % 16) :=
        parseHex_hexDigit _ (Nat.mod_lt _ (by omega))
      have h0 : parseHexDigit '0' = some 0 := by decide
      have hx : c.toNat / 16 * 16 + c.toNat % 16 = c.toNat := by omega
      simp only [List.cons_append, List.nil_append]
      rw [parseJsonStringBody.eq_def]
      simp [ih, hd1, hd2, h0, hx, Char.ofNat_toNat]
    · simp only [List.cons_append, List.nil_append]
      rw [parseJsonStringBody.eq_def]
      simp [ih, h1, h2, h8]

theorem data_append (a b : String) : (a ++ b).data = a.data ++ b.data := rfl

theorem takeLit_append (lit rest : List Char) : takeLit lit (lit ++ rest) = some rest := by
  simp [takeLit, List.isPrefixOf_iff_prefix.mpr (List.prefix_append lit rest), List.drop_left]

theorem stringifyPref_data (p : Preference) :
    (jsonStringifyPref p).data =
      langKeyLit ++ (jsonEscapeList p.language.data ++ '"' ::
        (midKeyLit ++ (jsonEscapeList p.componentPath.data ++ '"' :: endLit))) := by
  have h1 : ("\",\n  \"componentPath\": \"" : String).data = '"' :: midKeyLit := by decide
  have h2 : ("\"\n\x7d" : String).data = '"' :: endLit := by decide
  simp [jsonStringifyPref, jsonEscapeString, data_append, langKeyLit, h1, h2, midKeyLit, endLit]

theorem parsePref_roundtrip (p : Preference) :
    jsonParsePref (jsonStringifyPref p) = some p := by
  obtain ⟨lang, cp⟩ := p
  rw [jsonParsePref, stringifyPref_data]
  rw [parsePrefChars, takeLit_append, Option.some_bind, parse_escape, Option.some_bind,
    takeLit_append, Option.some_bind, parse_escape, Option.some_bind]
  simp

/-! ## Base name derivation -/

theorem splitOnCharList_ne_nil (sep : Char) (l : List Char) : splitOnCharList sep l ≠ [] := by
  induction l with
  | nil => simp [splitOnCharList]
  | cons c cs ih =>
    rw [splitOnCharList]
    split_ifs with h
    · simp
    · cases hs : splitOnCharList sep cs with
      | nil => simp
      | cons a t => simp

theorem splitOnCharList_headD (sep : Char) (l : List Char) :
    (splitOnCharList sep l).headD [] = l.takeWhile (fun c => !(c == sep)) := by
  induction l with
  | nil => simp [splitOnCharList]
  | cons c cs ih =>
    rw [splitOnCharList]
    split_ifs with h
    · subst h; simp [List.takeWhile_cons]
    · cases hs : splitOnCharList sep cs with
      | nil => exact absurd hs (splitOnCharList_ne_nil sep cs)
      | cons a t =>
        rw [hs] at ih
        simp only [List.headD_cons] at ih
        simp [List.takeWhile_cons, h, ih]

theorem baseName_takeWhile (componentName : String) :
    baseName componentName =
      String.mk ((jsToLowerCase componentName).data.takeWhile (fun c => !(c == '_'))) := by
  rw [baseName, splitOnCharList_headD]

theorem toNat_ofNat_valid (n : Nat) (h : n.isValidChar) : (Char.ofNat n).toNat = n := by
  simp [Char.ofNat, h, Char.toNat, Char.ofNatAux, UInt32.toNat, BitVec.toNat_ofNatLt]

theorem toLower_underscore_iff (c : Char) : Char.toLower c = '_' ↔ c = '_' := by
  constructor
  · intro h
    unfold Char.toLower at h
    dsimp only at h
    by_cases hc : c.toNat ≥ 65 ∧ c.toNat ≤ 90
    · rw [if_pos hc] at h
      exfalso
      have hv : (c.toNat + 32).isValidChar := by left; omega
      have h2 := congrArg Char.toNat h
      rw [toNat_ofNat_valid _ hv] at h2
      have h95 : ('_').toNat = 95 := by decide
      omega
    · rwa [if_neg hc] at h
  · intro h; subst h; decide

theorem baseName_no_underscore (componentName : String) (h : '_' ∉ componentName.data) :
    baseName componentName = jsToLowerCase componentName := by
  rw [baseName_takeWhile]
  have hall : ∀ c ∈ (jsToLowerCase componentName).data, (fun c => !(c == '_')) c = true := by
    intro c hc
    simp only [jsToLowerCase] at hc
    obtain ⟨a, ha, rfl⟩ := List.mem_map.mp hc
    simp only [Bool.not_eq_true', beq_eq_false_iff_ne, ne_eq]
    intro heq
    exact h ((toLower_underscore_iff a).mp heq ▸ ha)
  rw [List.takeWhile_eq_self_iff.mpr hall]

theorem getPreference_B_stored (cwd : String) (fs : FS) (p : Preference)
    (h : fs.files.lookup (configFile cwd) = some (jsonStringifyPref p)) :
    getPreference_B cwd fs = (.ok p, [], fs) := by
  simp [getPreference_B, h, parsePref_roundtrip]

theorem stringifyLangA_data (language : String) :
    (jsonStringifyLangA language).data =
      langKeyLit ++ (jsonEscapeList language.data ++ '"' :: endLitA) := by
  have h2 : ("\"\n\x7d" : String).data = '"' :: endLitA := by decide
  simp [jsonStringifyLangA, jsonEscapeString, data_append, langKeyLit, h2, endLitA]

theorem parseLangA_roundtrip (language : String) :
    jsonParseLangA (jsonStringifyLangA language) = some language := by
  obtain ⟨l⟩ := language
  rw [jsonParseLangA, stringifyLangA_data, takeLit_append, Option.some_bind, parse_escape,
    Option.some_bind]
  simp

theorem getPreference_A_stored (cwd : String) (fs : FS) (language : String)
    (h : fs.files.lookup (configFile cwd) = some (jsonStringifyLangA language)) :
    getPreference_A cwd fs = (.ok language, []) := by
  simp [getPreference_A, h, parseLangA_roundtrip]

theorem lookup_writeFile_self (fs : FS) (path content : String) :
    (fs.writeFile path content).files.lookup path = some content := by
  simp [FS.writeFile, List.lookup]

/-- C4: reading the preference store immediately after writing a
preference object returns its fields unchanged, and the read touches
nothing on disk. -/
theorem c4_preference_read_write_roundtrip (cwd : String) (fs : FS) (p : Preference) :
    getPreference_B cwd (fs.writeFile (configFile cwd) (jsonStringifyPref p)) =
      (.ok p, [], fs.writeFile (configFile cwd) (jsonStringifyPref p)) :=
  getPreference_B_stored cwd _ p (lookup_writeFile_self fs _ _)

/-- C6: with no preference file present, the variant B read returns the
default typescript preference with the default component path, raises
nothing, warns, and leaves the file system exactly as it was. -/
theorem c6_missing_config_default (cwd : String) (fs : FS)
    (h : fs.files.lookup (configFile cwd) = none) :
    getPreference_B cwd fs =
      (.ok ⟨"typescript", "src/app/multi-ui/components"⟩,
       [.warn "No preference found. Defaulting to TypeScript and default folder structure."],
       fs) := by
  simp only [getPreference_B, h]
  rfl

/-- Witness for C6 at a concrete empty file system. -/
theorem c6_missing_config_default_witness :
    (FS.mk [] []).files.lookup (configFile "/proj") = none ∧
    getPreference_B "/proj" ⟨[], []⟩ =
      (.ok ⟨"typescript", "src/app/multi-ui/components"⟩,
       [.warn "No preference found. Defaulting to TypeScript and default folder structure."],
       ⟨[], []⟩) :=
  ⟨rfl, c6_missing_config_default "/proj" ⟨[], []⟩ rfl⟩

/-- C5: running the variant B setup with prompt answers persists the
configuration file at the working directory, and its content parses to
exactly the lowercased language and the prompted directory joined with
multi-ui/components. -/
theorem c5_setup_persists_config (cwd promptLanguage promptDirectory : String) (fs : FS) :
    ((setupProject_B cwd promptLanguage promptDirectory fs).1.files.lookup
        (configFile cwd)).bind jsonParsePref =
      some ⟨jsToLowerCase promptLanguage, pathJoin [promptDirectory, "multi-ui", "components"]⟩ := by
  simp [setupProject_B, lookup_writeFile_self, parsePref_roundtrip]

theorem string_append_merge (a : String) (b c : String) : a ++ b ++ c = a ++ (b ++ c) := by
  apply String.ext
  simp [data_append, List.append_assoc]

/-- C3: both fetchers request exactly the template URL built from the
host, the repository, the variant component folder, the base name and
the component name; the base name is the portion of the lowercased
identifier before the first underscore, and it is the whole lowercased
identifier when the name has no underscore. -/
theorem c3_fetch_url_template (componentName : String) :
    fetchUrl_A componentName =
      "https://raw.githubusercontent.com/" ++ GITHUB_REPO ++ "/main/" ++ "src/app" ++ "/" ++
        (baseName componentName ++ ("/_components/" ++ (componentName ++ ".tsx"))) ∧
    fetchUrl_B componentName =
      "https://raw.githubusercontent.com/" ++ GITHUB_REPO ++ "/main/" ++ "app" ++ "/" ++
        (baseName componentName ++ ("/_components/" ++ (componentName ++ ".tsx"))) ∧
    baseName componentName =
      String.mk ((jsToLowerCase componentName).data.takeWhile (fun c => !(c == '_'))) ∧
    ('_' ∉ componentName.data → baseName componentName = jsToLowerCase componentName) := by
  refine ⟨?_, ?_, baseName_takeWhile componentName, baseName_no_underscore componentName⟩
  · apply String.ext
    simp [fetchUrl_A, data_append, List.append_assoc, GITHUB_REPO, COMPONENTS_PATH]
  · apply String.ext
    simp [fetchUrl_B, data_append, List.append_assoc, GITHUB_REPO]

/-- Witness for C3 at a concrete component name without underscore. -/
theorem c3_fetch_url_template_witness :
    ('_' ∉ ("Dropdown" : String).data) ∧
    fetchUrl_B "Dropdown" =
      "https://raw.githubusercontent.com/om0852/multi-ui/main/app/dropdown/_components/Dropdown.tsx" ∧
    baseName "Dropdown" = jsToLowerCase "Dropdown" :=
  ⟨by decide,
   ((c3_fetch_url_template "Dropdown").2.1).trans (by decide),
   (c3_fetch_url_template "Dropdown").2.2.2 (by decide)⟩

/-- C1: an add invocation against a host answering 200 with body `b`
writes, under the configured component path, the file named after the
component with the tsx extension containing exactly `b` when the stored
language is typescript, and with the jsx extension containing the Babel
transform of `b` when the stored language is javascript. -/
theorem c1_add_materializes_component
    (babel : String → String → Except String String) (net : String → AxiosResult)
    (cwd componentName stx body : String) (fs : FS) (p : Preference)
    (hcfg : fs.files.lookup (configFile cwd) = some (jsonStringifyPref p))
    (hnet : net (fetchUrl_B componentName) = .response 200 stx body) :
    (p.language = "typescript" →
      (createComponent_B babel net cwd componentName fs).fs.files.lookup
        (pathJoin [pathJoin [cwd, p.componentPath], componentName ++ ".tsx"]) = some body) ∧
    (∀ transformed, p.language = "javascript" →
      babel body (componentName ++ ".tsx") = .ok transformed →
      (createComponent_B babel net cwd componentName fs).fs.files.lookup
        (pathJoin [pathJoin [cwd, p.componentPath], componentName ++ ".jsx"]) = some transformed) := by
  have hpref := getPreference_B_stored cwd fs p hcfg
  have hmt : componentName ++ "." ++ "tsx" = componentName ++ ".tsx" :=
    (string_append_merge componentName "." "tsx").trans rfl
  have hmj : componentName ++ "." ++ "jsx" = componentName ++ ".jsx" :=
    (string_append_merge componentName "." "jsx").trans rfl
  have hfetch : fetchComponentFromGitHub_B net componentName = .ok body := by
    simp [fetchComponentFromGitHub_B, axiosGet, hnet]
  constructor
  · intro hlang
    simp [createComponent_B, hpref, hfetch, hlang, hmt, FS.writeFile, FS.ensureDir,
      List.lookup]
  · intro transformed hlang hbabel
    simp [createComponent_B, hpref, hfetch, hlang, hmj, convertTsxToJsx_B, hbabel,
      FS.writeFile, FS.ensureDir, List.lookup]

/-- Witness for C1: a concrete typescript add writing the fetched body. -/
theorem c1_add_materializes_component_witness :
    (FS.mk [(configFile "/w",
        jsonStringifyPref ⟨"typescript", "app/multi-ui/components"⟩)] []).files.lookup
        (configFile "/w") =
      some (jsonStringifyPref ⟨"typescript", "app/multi-ui/components"⟩) ∧
    (createComponent_B (fun s _ => .ok s)
        (fun _ => .response 200 "OK" "export default function Button()\x7b\x7d")
        "/w" "Button_1"
        ⟨[(configFile "/w", jsonStringifyPref ⟨"typescript", "app/multi-ui/components"⟩)],
         []⟩).fs.files.lookup
        (pathJoin [pathJoin ["/w", "app/multi-ui/components"], "Button_1" ++ ".tsx"]) =
      some "export default function Button()\x7b\x7d" :=
  ⟨rfl,
   (c1_add_materializes_component (fun s _ => .ok s)
     (fun _ => .response 200 "OK" "export default function Button()\x7b\x7d")
     "/w" "Button_1" "OK" "export default function Button()\x7b\x7d"
     ⟨[(configFile "/w", jsonStringifyPref ⟨"typescript", "app/multi-ui/components"⟩)], []⟩
     ⟨"typescript", "app/multi-ui/components"⟩ rfl rfl).1 rfl⟩

/-- C2: with a configured preference, a 404 from the host leaves the
files untouched and reports the component not found error naming the
component and the attempted URL; any other non 200 status and any
transport failure leave the files untouched and report the generic
fetch error wrapping the underlying message. -/
theorem c2_fetch_failure_taxonomy
    (babel : String → String → Except String String)
    (cwd componentName : String) (fs : FS) (p : Preference)
    (hcfg : fs.files.lookup (configFile cwd) = some (jsonStringifyPref p)) :
    (∀ net stx b, net (fetchUrl_B componentName) = .response 404 stx b →
      (createComponent_B babel net cwd componentName fs).fs.files = fs.files ∧
      (createComponent_B babel net cwd componentName fs).events =
        [.out ("Fetching " ++ componentName ++ " from GitHub..."),
         .err ("Error creating component: " ++
           ("Component \x27" ++ componentName ++ "\x27 not found at path: " ++
             fetchUrl_B componentName ++ "\nPlease check the component name and path."))]) ∧
    (∀ net s stx b, net (fetchUrl_B componentName) = .response s stx b →
      ¬(200 ≤ s ∧ s < 300) → s ≠ 404 →
      (createComponent_B babel net cwd componentName fs).fs.files = fs.files ∧
      (createComponent_B babel net cwd componentName fs).events =
        [.out ("Fetching " ++ componentName ++ " from GitHub..."),
         .err ("Error creating component: " ++
           ("Error fetching component: " ++ axiosStatusMessage s))]) ∧
    (∀ net s stx b, net (fetchUrl_B componentName) = .response s stx b →
      200 ≤ s ∧ s < 300 → s ≠ 200 →
      (createComponent_B babel net cwd componentName fs).fs.files = fs.files ∧
      (createComponent_B babel net cwd componentName fs).events =
        [.out ("Fetching " ++ componentName ++ " from GitHub..."),
         .err ("Error creating component: " ++
           ("Error fetching component: Failed to fetch component: " ++ stx))]) ∧
    (∀ net m, net (fetchUrl_B componentName) = .transportError m →
      (createComponent_B babel net cwd componentName fs).fs.files = fs.files ∧
      (createComponent_B babel net cwd componentName fs).events =
        [.out ("Fetching " ++ componentName ++ " from GitHub..."),
         .err ("Error creating component: " ++ ("Error fetching component: " ++ m))]) := by
  have hpref := getPreference_B_stored cwd fs p hcfg
  refine ⟨?_, ?_, ?_, ?_⟩
  · intro net stx b hnet
    have hfetch : fetchComponentFromGitHub_B net componentName =
        .error ("Component \x27" ++ componentName ++ "\x27 not found at path: " ++
          fetchUrl_B componentName ++ "\nPlease check the component name and path.") := by
      simp [fetchComponentFromGitHub_B, axiosGet, hnet]
    simp [createComponent_B, hpref, hfetch, FS.ensureDir]
  · intro net s stx b hnet hs h404
    have hfetch : fetchComponentFromGitHub_B net componentName =
        .error ("Error fetching component: " ++ axiosStatusMessage s) := by
      simp [fetchComponentFromGitHub_B, axiosGet, hnet, hs, h404]
    simp [createComponent_B, hpref, hfetch, FS.ensureDir]
  · intro net s stx b hnet hs h200
    have hfetch : fetchComponentFromGitHub_B net componentName =
        .error ("Error fetching component: Failed to fetch component: " ++ stx) := by
      simp [fetchComponentFromGitHub_B, axiosGet, hnet, hs, h200]
    simp [createComponent_B, hpref, hfetch, FS.ensureDir]
  · intro net m hnet
    have hfetch : fetchComponentFromGitHub_B net componentName =
        .error ("Error fetching component: " ++ m) := by
      simp [fetchComponentFromGitHub_B, axiosGet, hnet]
    simp [createComponent_B, hpref, hfetch, FS.ensureDir]

/-- Witness for C2: a concrete 404 leaves the files unchanged and
reports the not found error with the URL. -/
theorem c2_fetch_failure_taxonomy_witness :
    (FS.mk [(configFile "/w",
        jsonStringifyPref ⟨"typescript", "app/multi-ui/components"⟩)] []).files.lookup
        (configFile "/w") =
      some (jsonStringifyPref ⟨"typescript", "app/multi-ui/components"⟩) ∧
    ((createComponent_B (fun s _ => .ok s) (fun _ => .response 404 "Not Found" "")
        "/w" "Missing_1"
        ⟨[(configFile "/w", jsonStringifyPref ⟨"typescript", "app/multi-ui/components"⟩)],
         []⟩).fs.files =
      [(configFile "/w", jsonStringifyPref ⟨"typescript", "app/multi-ui/components"⟩)] ∧
    (createComponent_B (fun s _ => .ok s) (fun _ => .response 404 "Not Found" "")
        "/w" "Missing_1"
        ⟨[(configFile "/w", jsonStringifyPref ⟨"typescript", "app/multi-ui/components"⟩)],
         []⟩).events =
      [.out ("Fetching " ++ "Missing_1" ++ " from GitHub..."),
       .err ("Error creating component: " ++
         ("Component \x27" ++ "Missing_1" ++ "\x27 not found at path: " ++
           fetchUrl_B "Missing_1" ++ "\nPlease check the component name and path."))]) :=
  ⟨rfl,
   (c2_fetch_failure_taxonomy (fun s _ => .ok s) "/w" "Missing_1"
     ⟨[(configFile "/w", jsonStringifyPref ⟨"typescript", "app/multi-ui/components"⟩)], []⟩
     ⟨"typescript", "app/multi-ui/components"⟩ rfl).1
     (fun _ => .response 404 "Not Found" "") "Not Found" "" rfl⟩

/-- C9: in both variants the component directory is ensured, with its
ancestors, before the fetch is attempted, so after any fetch failure
the directory exists while the files are untouched. -/
theorem c9_dir_exists_after_failed_fetch
    (babel : String → String → Except String String) (net netA : String → AxiosResult)
    (cwd componentName msgB msgA lang : String) (fs fsA : FS) (p : Preference)
    (hcfg : fs.files.lookup (configFile cwd) = some (jsonStringifyPref p))
    (hfailB : fetchComponentFromGitHub_B net componentName = .error msgB)
    (hcfgA : fsA.files.lookup (configFile cwd) = some (jsonStringifyLangA lang))
    (hfailA : (fetchComponentFromGitHub_A netA componentName).1 = .error msgA) :
    (pathJoin [cwd, p.componentPath] ∈
        (createComponent_B babel net cwd componentName fs).fs.dirs ∧
      (∀ d ∈ dirAncestors (pathJoin [cwd, p.componentPath]),
        d ∈ (createComponent_B babel net cwd componentName fs).fs.dirs) ∧
      (createComponent_B babel net cwd componentName fs).fs.files = fs.files) ∧
    (pathJoin [cwd, "multi-ui", "components"] ∈
        (createComponent_A babel netA cwd componentName fsA).fs.dirs ∧
      (fsA.dirs.contains (pathJoin [cwd, "multi-ui", "components"]) = false →
        ∀ d ∈ dirAncestors (pathJoin [cwd, "multi-ui", "components"]),
          d ∈ (createComponent_A babel netA cwd componentName fsA).fs.dirs) ∧
      (createComponent_A babel netA cwd componentName fsA).fs.files = fsA.files) := by
  have hpref := getPreference_B_stored cwd fs p hcfg
  have hprefA := getPreference_A_stored cwd fsA lang hcfgA
  constructor
  · refine ⟨?_, ?_, ?_⟩
    · simp [createComponent_B, hpref, hfailB, FS.ensureDir]
    · intro d hd
      simp [createComponent_B, hpref, hfailB, FS.ensureDir]
      exact Or.inr (Or.inl hd)
    · simp [createComponent_B, hpref, hfailB, FS.ensureDir]
  · rcases hfa : fetchComponentFromGitHub_A netA componentName with ⟨res, fevs⟩
    rw [hfa] at hfailA
    simp only at hfailA
    subst hfailA
    by_cases hm : pathJoin [cwd, "multi-ui", "components"] ∈ fsA.dirs
    · refine ⟨?_, ?_, ?_⟩
      · simp [createComponent_A, hprefA, hfa, hm]
      · intro hfalse
        exfalso
        have hcontains : fsA.dirs.contains (pathJoin [cwd, "multi-ui", "components"]) = true := by
          simpa using hm
        rw [hcontains] at hfalse
        exact absurd hfalse (by simp)
      · simp [createComponent_A, hprefA, hfa, hm]
    · refine ⟨?_, ?_, ?_⟩
      · simp [createComponent_A, hprefA, hfa, hm, FS.ensureDir]
      · intro hfalse d hd
        simp [createComponent_A, hprefA, hfa, hm, FS.ensureDir]
        exact Or.inr (Or.inl hd)
      · simp [createComponent_A, hprefA, hfa, hm, FS.ensureDir]

/-- Witness for C9: after a concrete transport failure both variants
have created their component directory. -/
theorem c9_dir_exists_after_failed_fetch_witness :
    pathJoin ["/w", "app/multi-ui/components"] ∈
      (createComponent_B (fun s _ => .ok s) (fun _ => .transportError "ECONNREFUSED")
        "/w" "Button_1"
        ⟨[(configFile "/w", jsonStringifyPref ⟨"typescript", "app/multi-ui/components"⟩)],
         []⟩).fs.dirs ∧
    pathJoin ["/w", "multi-ui", "components"] ∈
      (createComponent_A (fun s _ => .ok s) (fun _ => .transportError "ECONNREFUSED")
        "/w" "Button_1"
        ⟨[(configFile "/w", jsonStringifyLangA "typescript")], []⟩).fs.dirs :=
  ⟨(c9_dir_exists_after_failed_fetch (fun s _ => .ok s)
      (fun _ => .transportError "ECONNREFUSED") (fun _ => .transportError "ECONNREFUSED")
      "/w" "Button_1" ("Error fetching component: " ++ "ECONNREFUSED") "ECONNREFUSED"
      "typescript"
      ⟨[(configFile "/w", jsonStringifyPref ⟨"typescript", "app/multi-ui/components"⟩)], []⟩
      ⟨[(configFile "/w", jsonStringifyLangA "typescript")], []⟩
      ⟨"typescript", "app/multi-ui/components"⟩ rfl rfl rfl rfl).1.1,
   (c9_dir_exists_after_failed_fetch (fun s _ => .ok s)
      (fun _ => .transportError "ECONNREFUSED") (fun _ => .transportError "ECONNREFUSED")
      "/w" "Button_1" ("Error fetching component: " ++ "ECONNREFUSED") "ECONNREFUSED"
      "typescript"
      ⟨[(configFile "/w", jsonStringifyPref ⟨"typescript", "app/multi-ui/components"⟩)], []⟩
      ⟨[(configFile "/w", jsonStringifyLangA "typescript")], []⟩
      ⟨"typescript", "app/multi-ui/components"⟩ rfl rfl rfl rfl).2.1⟩

/-- C10: the component name is joined into the output path without
sanitization, so a name with dot dot segments makes the add operation
write outside the configured component directory: here the configured
directory resolves to /w/app/multi-ui/components while the file lands
at /w/app/evil.tsx. -/
theorem c10_unsanitized_name_escapes_component_dir :
    (createComponent_B (fun s _ => .ok s) (fun _ => .response 200 "OK" "body")
        "/w" "../../evil"
        ⟨[(configFile "/w", jsonStringifyPref ⟨"typescript", "app/multi-ui/components"⟩)],
         []⟩).fs.files.lookup "/w/app/evil.tsx" = some "body" ∧
    pathJoin ["/w", "app/multi-ui/components"] = "/w/app/multi-ui/components" ∧
    ((("/w/app/multi-ui/components/" : String).data).isPrefixOf
        ("/w/app/evil.tsx" : String).data) = false ∧
    ("/w/app/evil.tsx" : String) ≠ "/w/app/multi-ui/components" := by
  refine ⟨by decide, by decide, by decide, by decide⟩

theorem installAttempt_notin_fetchA (net : String → AxiosResult) (n : String) :
    Event.installAttempt ∉ (fetchComponentFromGitHub_A net n).2 := by
  rw [fetchComponentFromGitHub_A]
  rcases axiosGet net (fetchUrl_A n) with ⟨st, stx, b⟩ | ⟨st, stx⟩ | m
  · dsimp only
    split_ifs <;> simp
  · simp
  · simp

theorem installAttempt_notin_convertFiles
    (babel : String → String → Except String String) (inDir outDir : String) :
    ∀ (files : List String) (fs : FS) (evs : List Event),
      Event.installAttempt ∉ evs →
      Event.installAttempt ∉ (convertFiles babel inDir outDir files fs evs).2.1 := by
  intro files
  induction files with
  | nil => intro fs evs h; simpa [convertFiles] using h
  | cons f rest ih =>
    intro fs evs h
    rw [convertFiles]
    split_ifs with hx
    · cases hl : List.lookup (pathJoin [inDir, f]) fs.files with
      | none => simp only [hl]; simpa using h
      | some code =>
        simp only [hl]
        cases hb : babel code f with
        | error e => simp only [hb]; simpa using h
        | ok t =>
          simp only [hb]
          apply ih
          simp [List.mem_append, h]
    · exact ih fs evs h

theorem installAttempt_notin_convertA
    (babel : String → String → Except String String) (inDir outDir : String) (fs : FS) :
    Event.installAttempt ∉ (convertTsxToJsx_A babel inDir outDir fs).2.1 := by
  rw [convertTsxToJsx_A]
  cases hr : fs.readdir inDir with
  | error e => simp
  | ok files => exact installAttempt_notin_convertFiles babel inDir outDir files fs [] (by simp)

theorem installAttempt_notin_getPreference_A (cwd : String) (fs : FS) :
    Event.installAttempt ∉ (getPreference_A cwd fs).2 := by
  cases hl : fs.files.lookup (configFile cwd) with
  | none => simp [getPreference_A, hl]
  | some content =>
    cases hp : jsonParseLangA content with
    | none => simp [getPreference_A, hl, hp]
    | some lang => simp [getPreference_A, hl, hp]

theorem installAttempt_notin_createComponent_A
    (babel : String → String → Except String String) (net : String → AxiosResult)
    (cwd componentName : String) (fs : FS) :
    Event.installAttempt ∉ (createComponent_A babel net cwd componentName fs).events := by
  have hg := installAttempt_notin_getPreference_A cwd fs
  rcases hgp : getPreference_A cwd fs with ⟨res, evs⟩
  rw [hgp] at hg
  cases res with
  | error e => simp [createComponent_A, hgp]; simpa using hg
  | ok language =>
    have hf := installAttempt_notin_fetchA net componentName
    rcases hfa : fetchComponentFromGitHub_A net componentName with ⟨fres, fevs⟩
    rw [hfa] at hf
    cases fres with
    | error msg =>
      simp [createComponent_A, hgp, hfa, List.mem_append]
      refine ⟨by simpa using hg, by simpa using hf⟩
    | ok code =>
      simp only [createComponent_A, hgp, hfa]
      generalize (if fs.dirs.contains (pathJoin [cwd, "multi-ui", "components"]) = true then fs
        else fs.ensureDir (pathJoin [cwd, "multi-ui", "components"])) = fs1
      split_ifs with hjs
      · split
        · rename_i fs2 cevs e heq
          have hc := installAttempt_notin_convertA babel
            (pathJoin [cwd, "multi-ui", "components", componentName])
            (pathJoin [cwd, "multi-ui", "components", "converted"]) fs1
          rw [heq] at hc
          simp only at hc
          simp [List.mem_append]
          refine ⟨by simpa using hg, by simpa using hf, by simpa using hc⟩
        · rename_i fs2 cevs heq
          have hc := installAttempt_notin_convertA babel
            (pathJoin [cwd, "multi-ui", "components", componentName])
            (pathJoin [cwd, "multi-ui", "components", "converted"]) fs1
          rw [heq] at hc
          simp only at hc
          simp [List.mem_append]
          refine ⟨by simpa using hg, by simpa using hf, by simpa using hc⟩
      · simp [List.mem_append]
        refine ⟨by simpa using hg, by simpa using hf⟩

/-- C7 counterexample: in the variant that runs the installation step, a
failing installation leaves the configuration unwritten and only an
unexpected error is reported, so setup did not continue past it. -/
theorem c7_install_failure_blocks_setup_counterexample :
    (main_B (fun s _ => .ok s) (fun _ => .transportError "offline") "/w" ["setup"]
        (.error "Error installing Babel presets: boom") "TypeScript" "src/app/"
        ⟨[], []⟩).1.files.lookup (configFile "/w") = none ∧
    (main_B (fun s _ => .ok s) (fun _ => .transportError "offline") "/w" ["setup"]
        (.error "Error installing Babel presets: boom") "TypeScript" "src/app/"
        ⟨[], []⟩).2 = [.installAttempt, .err "Unexpected error: undefined"] :=
  ⟨rfl, rfl⟩

/-- C7 amended: a failing installation during setup aborts the
remaining setup steps in the variant that invokes it, leaving the file
system untouched and reporting an unexpected error, while the other
variant never attempts an installation at all. -/
theorem c7_install_failure_aborts_setup
    (babel : String → String → Except String String) (net : String → AxiosResult)
    (cwd e promptLanguage promptDirectory : String) (fs : FS) :
    main_B babel net cwd ["setup"] (.error e) promptLanguage promptDirectory fs =
      (fs, [.installAttempt, .err "Unexpected error: undefined"]) ∧
    (∀ (babelA : String → String → Except String String) (netA : String → AxiosResult)
        (cwdA : String) (argv : List String) (plA : String) (fsA : FS),
      Event.installAttempt ∉ (main_A babelA netA cwdA argv plA fsA).2) := by
  constructor
  · rfl
  · intro babelA netA cwdA argv plA fsA
    rw [main_A]
    split_ifs with h1 h2
    · simp [setupProject_A]
    · simpa using installAttempt_notin_createComponent_A babelA netA cwdA
        ((argv.get? 1).getD "") fsA
    · simp

/-- C8 counterexample: in the configurable variant, add without a name
prints an error message on the error stream, not the usage text on
standard output. -/
theorem c8_add_without_name_counterexample :
    (main_B (fun s _ => .ok s) (fun _ => .transportError "offline") "/w" ["add"] (.ok ())
        "TypeScript" "src/app/" ⟨[], []⟩).2 =
      [.err "Please provide a component name. Usage: npx multi-ui add <ComponentName>"] ∧
    Event.out usage_B ∉ (main_B (fun s _ => .ok s) (fun _ => .transportError "offline") "/w"
        ["add"] (.ok ()) "TypeScript" "src/app/" ⟨[], []⟩).2 :=
  ⟨rfl, by decide⟩

/-- C8 amended: an invocation that is neither setup nor add prints the
usage text in both variants and changes nothing; add without a truthy
name prints the usage text in variant A, but in variant B prints an
error message on the error stream instead. -/
theorem c8_usage_text_behavior
    (babel : String → String → Except String String) (net : String → AxiosResult)
    (cwd : String) (installResult : Except String Unit)
    (promptLanguage promptDirectory : String) (fs : FS) :
    (∀ argv : List String, argv.get? 0 ≠ some "setup" → argv.get? 0 ≠ some "add" →
      main_B babel net cwd argv installResult promptLanguage promptDirectory fs =
        (fs, [.out usage_B])) ∧
    (∀ argv : List String, argv.get? 0 = some "add" → jsTruthy (argv.get? 1) = false →
      main_B babel net cwd argv installResult promptLanguage promptDirectory fs =
        (fs, [.err "Please provide a component name. Usage: npx multi-ui add <ComponentName>"])) ∧
    (∀ argv : List String, argv.get? 0 ≠ some "setup" →
      ¬(argv.get? 0 = some "add" ∧ jsTruthy (argv.get? 1) = true) →
      main_A babel net cwd argv promptLanguage fs = (fs, [.out usage_A])) := by
  refine ⟨?_, ?_, ?_⟩
  · intro argv h1 h2
    simp only [List.get?_eq_getElem?] at h1 h2
    simp [main_B, h1, h2]
  · intro argv h1 h2
    simp only [List.get?_eq_getElem?] at h1 h2
    simp [main_B, h1, h2]
  · intro argv h1 h2
    rw [main_A, if_neg h1, if_neg h2]

/-- Witness for C8 at concrete unknown and bare add invocations. -/
theorem c8_usage_text_behavior_witness :
    ((["help"] : List String).get? 0 ≠ some "setup" ∧
      (["help"] : List String).get? 0 ≠ some "add" ∧
     main_B (fun s _ => .ok s) (fun _ => .transportError "offline") "/w" ["help"] (.ok ())
        "TypeScript" "src/app/" ⟨[], []⟩ = (⟨[], []⟩, [.out usage_B])) ∧
    ((["add"] : List String).get? 0 = some "add" ∧ jsTruthy ((["add"] : List String).get? 1) = false ∧
     main_B (fun s _ => .ok s) (fun _ => .transportError "offline") "/w" ["add"] (.ok ())
        "TypeScript" "src/app/" ⟨[], []⟩ =
        (⟨[], []⟩,
         [.err "Please provide a component name. Usage: npx multi-ui add <ComponentName>"])) ∧
    main_A (fun s _ => .ok s) (fun _ => .transportError "offline") "/w" ["add"]
        "TypeScript" ⟨[], []⟩ = (⟨[], []⟩, [.out usage_A]) :=
  ⟨⟨by decide, by decide,
    (c8_usage_text_behavior (fun s _ => .ok s) (fun _ => .transportError "offline") "/w"
      (.ok ()) "TypeScript" "src/app/" ⟨[], []⟩).1 ["help"] (by decide) (by decide)⟩,
   ⟨rfl, rfl,
    (c8_usage_text_behavior (fun s _ => .ok s) (fun _ => .transportError "offline") "/w"
      (.ok ()) "TypeScript" "src/app/" ⟨[], []⟩).2.1 ["add"] rfl rfl⟩,
   (c8_usage_text_behavior (fun s _ => .ok s) (fun _ => .transportError "offline") "/w"
      (.ok ()) "TypeScript" "src/app/" ⟨[], []⟩).2.2 ["add"] (by decide) (by decide)⟩
